import Mathlib

/-!
Verification development for the GIMP plugin "pl-gdci.py"
(Gdci - Gimp for Delphi Components Icons).

The plugin exposes three operations on a host-managed image Document:
icon export (export_component_variants_no_pdb), resource-descriptor
generation (generate_rc_files) and template creation.  This file gives a
shallow embedding of the first two operations and of the pure string
helpers they use.  Host calls that can fail (duplicate, merge, scale,
save, size read, makedirs, file write) are driven by an oracle of
Booleans indexed by a per-call-kind counter; layer visibility flips and
message dialogs never raise in the source (each such site is wrapped in
its own try/except and the dialog helpers swallow every exception), so
they are modelled as total state updates.  Pixel content (compositing,
flattening, codecs) is outside every claim and is not modelled; what is
tracked is the observable trace: files saved, save attempts, scale-call
targets, master images created and deleted, folder creation, and the
failure-log channel.
-/

/-- Python-level whitespace test used by str.split(None) and str.strip
for the ASCII range that layer names use. -/
def pyIsSpace (c : Char) : Bool :=
  c = ' ' || c = '\t' || c = '\n' || c = '\r' || c = '\x0b' || c = '\x0c'

/-- Python s.startswith(pre), over the character lists so that every
use reduces inside the kernel. -/
def strStartsWith (s pre : String) : Bool :=
  pre.toList.isPrefixOf s.toList

/-- Python s.endswith(suf). -/
def strEndsWith (s suf : String) : Bool :=
  suf.toList.isSuffixOf s.toList

/-- Python s.lower() for the ASCII letters (the only characters the
case-insensitive prefix test of lines 384 and 576 can be sensitive
to). -/
def pyLowerChar (c : Char) : Char :=
  if 'A' ≤ c && c ≤ 'Z' then Char.ofNat (c.toNat + 32) else c

def pyLower (s : String) : String :=
  String.mk (s.toList.map pyLowerChar)

/-- Python s.strip(): drop leading and trailing whitespace. -/
def pyStrip (s : String) : String :=
  String.mk (((s.toList.dropWhile pyIsSpace).reverse.dropWhile pyIsSpace).reverse)

/-- Python s.split(None, 1): split on the first whitespace run, at most
once; leading whitespace is skipped, an all-whitespace remainder yields
no second element, an all-whitespace input yields the empty list. -/
def pySplitWs1 (s : String) : List String :=
  let cs1 := s.toList.dropWhile pyIsSpace
  match cs1 with
  | [] => []
  | _ =>
    let tok := cs1.takeWhile (fun c => !pyIsSpace c)
    let rest := (cs1.dropWhile (fun c => !pyIsSpace c)).dropWhile pyIsSpace
    match rest with
    | [] => [String.mk tok]
    | _ => [String.mk tok, String.mk rest]

/-- Character class of the regex [A-Za-z0-9_] in the source
(re.sub at lines 384 and 584). -/
def isWordChar (c : Char) : Bool :=
  ('A' ≤ c && c ≤ 'Z') || ('a' ≤ c && c ≤ 'z') || ('0' ≤ c && c ≤ '9') || c = '_'

/-- Per-character action of re.sub(r'[^A-Za-z0-9_]', '_', -). -/
def sanChar (c : Char) : Char :=
  if isWordChar c then c else '_'

/-- Identifier sanitization: re.sub(r'[^A-Za-z0-9_]', '_', s). -/
def sanitize (s : String) : String :=
  String.mk (s.toList.map sanChar)

/-- Boolean form of the regex [A-Za-z0-9_]+ from the spec sentence about
sanitization (used only in claim statements, never in the model). -/
def matchesWordPlus (s : String) : Bool :=
  !s.toList.isEmpty && s.toList.all isWordChar

/-- Python os.path.join for one relative or absolute component. -/
def pyPathJoin (a b : String) : String :=
  if strStartsWith b "/" then b
  else if a = "" then b
  else if strEndsWith a "/" then a ++ b
  else a ++ "/" ++ b

/-- EXPORT_SIZES from line 54 of the source. -/
def EXPORT_SIZES : List Nat := [24, 32, 48, 72, 96, 128, 256, 512, 1024]

/-- Layer of the Document: a name and a visibility flag (the only layer
attributes the plugin reads or writes). -/
structure Layer where
  name : String
  visible : Bool
deriving DecidableEq

/-- is_component_layer (source lines 169-173): the name starts with the
exact, case-sensitive prefix "Cmp ". -/
def is_component_layer (l : Layer) : Bool :=
  strStartsWith l.name "Cmp "

/-- PDB status values returned by the two operations. -/
inductive PDBStatus
  | success
  | cancel
  | callingError
deriving DecidableEq

/-- Python exceptions that can escape a top-level operation.  The only
unguarded raise site is the IndexError of split(None, 1)[1] at line 384;
every RuntimeError of the helpers is caught by the surrounding
try/except of the pass it occurs in. -/
inductive PyErr
  | indexError
deriving DecidableEq

deriving instance DecidableEq for Except

/-- Format of a master image (BMP pass or PNG pass). -/
inductive ImgFormat
  | bmp
  | png
deriving DecidableEq

def extOf : ImgFormat → String
  | .bmp => ".bmp"
  | .png => ".png"

def isBmpFmt : ImgFormat → Bool
  | .bmp => true
  | .png => false

/-- Oracle for the fallible host calls, one Boolean stream per call
kind, indexed by how many calls of that kind happened so far.
dupOk: image.duplicate succeeds; mergeOk: some strategy of
merge_visible_to_single_layer succeeds (including its first-visible
fallback); scaleOk: image.scale succeeds; saveOk: gimp_file_save
reports True; sizeReadable: the width/height accessors of
get_image_size_safe are present and do not raise; mkdirOk: os.makedirs
succeeds; writeOk: the nth .rc file write succeeds. -/
structure Host where
  mkdirOk : Bool
  dupOk : Nat → Bool
  mergeOk : Nat → Bool
  scaleOk : Nat → Bool
  saveOk : Nat → Bool
  sizeReadable : Nat → Bool
  writeOk : Nat → Bool

/-- Observable state threaded through one run of the export operation. -/
structure St where
  doc : List Layer
  mkdirCalled : Bool
  nDup : Nat
  nMerge : Nat
  nScale : Nat
  nSave : Nat
  nSizeRead : Nat
  nextImg : Nat
  createdBmp : List Nat
  createdPng : List Nat
  live : List Nat
  scaleTargets : List (Nat × Nat)
  saveAttempts : List String
  files : List String
  log : List String
deriving DecidableEq

def initSt (doc : List Layer) : St :=
  { doc := doc, mkdirCalled := false, nDup := 0, nMerge := 0, nScale := 0,
    nSave := 0, nSizeRead := 0, nextImg := 0, createdBmp := [], createdPng := [],
    live := [], scaleTargets := [], saveAttempts := [], files := [], log := [] }

/-- get_image_size_safe (lines 321-329): actual dimensions when the
accessors work, the fixed fallback (1024, 1024) otherwise. -/
def get_image_size_safe (readable : Bool) (w hgt : Nat) : Nat × Nat :=
  if readable then (w, hgt) else (1024, 1024)

/-- duplicate_image (lines 176-182): on success a fresh master image
with the original Document dimensions is created and becomes live;
on failure a RuntimeError is raised (here: none). -/
def callDup (host : Host) (fmt : ImgFormat) (st : St) : Option Nat × St :=
  if host.dupOk st.nDup then
    (some st.nextImg,
      { st with
        nDup := st.nDup + 1
        nextImg := st.nextImg + 1
        live := st.nextImg :: st.live
        createdBmp := if isBmpFmt fmt then st.createdBmp ++ [st.nextImg] else st.createdBmp
        createdPng := if isBmpFmt fmt then st.createdPng else st.createdPng ++ [st.nextImg] })
  else (none, { st with nDup := st.nDup + 1 })

/-- merge_visible_to_single_layer (lines 185-249): the oracle says
whether any of its strategies succeeded; otherwise it raises. -/
def callMerge (host : Host) (st : St) : Bool × St :=
  (host.mergeOk st.nMerge, { st with nMerge := st.nMerge + 1 })

/-- scale_image (lines 252-259): records the attempted target and
either succeeds or raises. -/
def callScale (host : Host) (w hgt : Nat) (st : St) : Bool × St :=
  (host.scaleOk st.nScale,
   { st with nScale := st.nScale + 1, scaleTargets := st.scaleTargets ++ [(w, hgt)] })

/-- gimp_file_save (lines 287-315): never raises, records the attempt,
returns whether the save was reported successful. -/
def callSave (host : Host) (path : String) (st : St) : Bool × St :=
  (host.saveOk st.nSave,
   { st with
     nSave := st.nSave + 1
     saveAttempts := st.saveAttempts ++ [path]
     files := if host.saveOk st.nSave then st.files ++ [path] else st.files })

/-- get_image_size_safe call site accounting. -/
def callSizeRead (host : Host) (st : St) : Bool × St :=
  (host.sizeReadable st.nSizeRead, { st with nSizeRead := st.nSizeRead + 1 })

/-- delete_image_safe (lines 278-284): swallows every exception, so it
never raises; the master stops being live. -/
def deleteImg (st : St) (id : Nat) : St :=
  { st with live := st.live.erase id }

def pushLog (st : St) (msg : String) : St :=
  { st with log := st.log ++ [msg] }

/-- scale_image wrapped with the current master dimensions: on success
the master has the target dimensions, on failure it keeps the old. -/
def tryScaleDims (host : Host) (w hgt cw ch : Nat) (st : St) : Bool × St × Nat × Nat :=
  let r := callScale host w hgt st
  if r.1 then (true, r.2, w, hgt) else (false, r.2, cw, ch)

/-- set_visible on the layer at a position of the Document (component
layers are addressed by object identity in the source, here by index). -/
def setVisList (ls : List Layer) (i : Nat) (v : Bool) : List Layer :=
  match ls, i with
  | [], _ => []
  | l :: rest, 0 => { l with visible := v } :: rest
  | l :: rest, Nat.succ j => l :: setVisList rest j v

/-- find_layer_by_name (first match) followed by set_visible, a no-op
when the name is absent (the source checks the layer against None). -/
def setVisNamed (ls : List Layer) (nm : String) (v : Bool) : List Layer :=
  match ls with
  | [] => []
  | l :: rest =>
    if l.name = nm then { l with visible := v } :: rest
    else l :: setVisNamed rest nm v

/-- Component layers with their positions, in Document order
(the componentLayers list built once at lines 372-376). -/
def componentsOfAux : List Layer → Nat → List (Nat × String)
  | [], _ => []
  | l :: rest, i =>
    if is_component_layer l then (i, l.name) :: componentsOfAux rest (i + 1)
    else componentsOfAux rest (i + 1)

def componentsOf (ls : List Layer) : List (Nat × String) :=
  componentsOfAux ls 0

/-- Identifier derivation of the export operation, line 384:
compSafe = re.sub(r'[^A-Za-z0-9_]', '_', name.split(None, 1)[1].strip())
when name.lower() starts with "cmp ", else re.sub on the whole name.
The [1] raises IndexError when the name has no non-whitespace suffix,
and that raise site is not inside any try. -/
def compIdent (raw : String) : Except PyErr String :=
  if strStartsWith (pyLower raw) "cmp " then
    match pySplitWs1 raw with
    | _ :: suffix :: _ => .ok (sanitize (pyStrip suffix))
    | _ => .error .indexError
  else .ok (sanitize raw)

/-- Boolean test that the identifier derivation of line 384 does not
raise on a given layer name. -/
def identOk (nm : String) : Bool :=
  match compIdent nm with
  | .ok _ => true
  | .error _ => false

/-- Identifier produced by line 384 (meaningful when identOk holds). -/
def identOfName (nm : String) : String :=
  match compIdent nm with
  | .ok i => i
  | .error _ => sanitize nm

/-- Output path of one exported artifact,
os.path.join(outputFolder, compSafe + str(s) + ext). -/
def pathOf (fmt : ImgFormat) (folder ident : String) (s : Nat) : String :=
  pyPathJoin folder (ident ++ toString s ++ extOf fmt)

/-- Pass-local variables of one master's size loop: the master image,
its current dimensions, and the recorded original dimensions. -/
structure PassSt where
  master : Nat
  curW : Nat
  curH : Nat
  ow : Nat
  oh : Nat
  st : St
deriving DecidableEq

/-- First half of one size iteration: the forward scale attempt (the
failure caught and logged) followed by the save (its failure report
logged); the extra components carry the master dimensions after the
attempt. -/
def stepPre (host : Host) (fmt : ImgFormat) (folder ident : String)
    (s : Nat) (p : PassSt) : St × Nat × Nat :=
  let r1 := tryScaleDims host s s p.curW p.curH p.st
  let st1 := if r1.1 then r1.2.1 else pushLog r1.2.1 (extOf fmt ++ " scale failed for " ++ toString s)
  let path := pathOf fmt folder ident s
  let r2 := callSave host path st1
  let st2 := if r2.1 then r2.2 else pushLog r2.2 ("export failed (report) for " ++ path)
  (st2, r1.2.2.1, r1.2.2.2)

/-- Recovery path of the finally block (lines 451-462 and 508-516):
after the restore scale failed, delete the master and recreate it
(duplicate, merge, size read); a duplicate or merge failure escapes
with the current value of the master variable. -/
def recreateMaster (host : Host) (fmt : ImgFormat) (docW docH : Nat)
    (oldMaster : Nat) (st : St) : Except (Nat × St) PassSt :=
  let st4 := deleteImg st oldMaster
  match callDup host fmt st4 with
  | (none, st5) => .error (oldMaster, st5)
  | (some m2, st6) =>
    match callMerge host st6 with
    | (false, st7) => .error (m2, st7)
    | (true, st8) =>
      let r4 := callSizeRead host st8
      let owh := get_image_size_safe r4.1 docW docH
      .ok { master := m2, curW := docW, curH := docH, ow := owh.1, oh := owh.2, st := r4.2 }

/-- One iteration of the per-size loop (lines 434-462 for BMP, 493-516
for PNG): scale to (s, s) and save (stepPre), then in the finally block
restore the recorded original dimensions; if the restore fails, run the
recovery path, whose failure escapes to the except of the enclosing
pass with the value of the master variable for the outer finally to
delete. -/
def stepSize (host : Host) (fmt : ImgFormat) (folder ident : String)
    (docW docH : Nat) (s : Nat) (p : PassSt) : Except (Nat × St) PassSt :=
  let pre := stepPre host fmt folder ident s p
  let r3 := tryScaleDims host p.ow p.oh pre.2.1 pre.2.2 pre.1
  if r3.1 then
    .ok { p with st := r3.2.1, curW := r3.2.2.1, curH := r3.2.2.2 }
  else
    recreateMaster host fmt docW docH p.master r3.2.1

/-- The per-size loop over a list of sizes. -/
def runSizes (host : Host) (fmt : ImgFormat) (folder ident : String)
    (docW docH : Nat) : List Nat → PassSt → Except (Nat × St) PassSt
  | [], p => .ok p
  | s :: rest, p =>
    match stepSize host fmt folder ident docW docH s p with
    | .ok p2 => runSizes host fmt folder ident docW docH rest p2
    | .error e => .error e

/-- Exit of the size loop combined with the pass's outer finally (the
unconditional delete of whatever the master variable holds); an aborted
loop is first logged by the pass's except. -/
def finishPass (fmt : ImgFormat) (r : Except (Nat × St) PassSt) : St :=
  match r with
  | .ok p => deleteImg p.st p.master
  | .error (mv, stE) => deleteImg (pushLog stE ("Error preparing " ++ extOf fmt ++ " master")) mv

/-- One master pass (BMP: lines 407-470, PNG: lines 472-524).  Sets the
background visibilities for its format, duplicates the Document into a
master, merges, reads the original dimensions, runs the size loop, and
in the finally block unconditionally deletes whatever the master
variable holds.  A duplicate or merge failure is caught by the pass's
except and logged. -/
def masterPass (host : Host) (fmt : ImgFormat) (folder ident : String)
    (docW docH : Nat) (st : St) : St :=
  let d1 := setVisNamed st.doc "Fucsia Background" (isBmpFmt fmt)
  let d2 := setVisNamed d1 "Transparent Background" (!isBmpFmt fmt)
  let st0 := { st with doc := d2 }
  match callDup host fmt st0 with
  | (none, st1) => pushLog st1 ("Error preparing " ++ extOf fmt ++ " master")
  | (some m, st2) =>
    match callMerge host st2 with
    | (false, st3) => deleteImg (pushLog st3 ("Error preparing " ++ extOf fmt ++ " master")) m
    | (true, st4) =>
      let r := callSizeRead host st4
      let owh := get_image_size_safe r.1 docW docH
      finishPass fmt (runSizes host fmt folder ident docW docH EXPORT_SIZES
        { master := m, curW := docW, curH := docH, ow := owh.1, oh := owh.2, st := r.2 })

/-- Body of the component loop (lines 383-524) for one component layer:
derive the identifier (the one unguarded raise site), hide all
component layers, show "Small logo" and this component, then run the
BMP pass followed by the PNG pass. -/
def exportComp (host : Host) (folder : String) (docW docH : Nat)
    (allComps : List (Nat × String)) (c : Nat × String) (st : St) :
    Except (PyErr × St) St :=
  match compIdent c.2 with
  | .error e => .error (e, st)
  | .ok ident =>
    let d1 := allComps.foldl (fun d ic => setVisList d ic.1 false) st.doc
    let d2 := setVisNamed d1 "Small logo" true
    let d3 := setVisList d2 c.1 true
    let st1 := { st with doc := d3 }
    let st2 := masterPass host .bmp folder ident docW docH st1
    .ok (masterPass host .png folder ident docW docH st2)

/-- The component loop. -/
def exportLoop (host : Host) (folder : String) (docW docH : Nat)
    (allComps : List (Nat × String)) : List (Nat × String) → St →
    Except (PyErr × St) St
  | [], st => .ok st
  | c :: rest, st =>
    match exportComp host folder docW docH allComps c st with
    | .error e => .error e
    | .ok st2 => exportLoop host folder docW docH allComps rest st2

/-- Output-folder resolution of both operations (lines 336-353 and
534-551): in interactive mode the folder comes from the dialog (None on
cancel), otherwise from the first positional argument; an absent or
whitespace-only folder is the cancel outcome. -/
def resolveFolder (interactive : Bool) (dialog : Option String)
    (args : List String) : Option String :=
  let raw := if interactive then dialog else args.head?
  match raw with
  | none => none
  | some f => if pyStrip f = "" then none else some f

/-- State after the os.makedirs attempt of line 356. -/
def initStMkdir (doc : List Layer) : St :=
  { initSt doc with mkdirCalled := true }

/-- Body of export_component_variants_no_pdb after the output folder
has been resolved: os.makedirs (CALLING_ERROR on failure, the creation
attempt happening before anything else), collect the component layers
(CALLING_ERROR when there are none — after the makedirs), then run the
component loop and return SUCCESS.  An IndexError from the identifier
derivation escapes the function. -/
def exportAfterFolder (host : Host) (folder : String) (doc : List Layer)
    (docW docH : Nat) : Except (PyErr × St) (PDBStatus × St) :=
  if host.mkdirOk then
    match componentsOf doc with
    | [] => .ok (.callingError, initStMkdir doc)
    | c :: rest =>
      match exportLoop host folder docW docH (c :: rest) (c :: rest) (initStMkdir doc) with
      | .error e => .error e
      | .ok st2 => .ok (.success, st2)
  else .ok (.callingError, initStMkdir doc)

/-- export_component_variants_no_pdb (lines 335-527): resolve the
folder (CANCEL when absent), then exportAfterFolder. -/
def export_component_variants_no_pdb (host : Host) (interactive : Bool)
    (dialog : Option String) (args : List String) (doc : List Layer)
    (docW docH : Nat) : Except (PyErr × St) (PDBStatus × St) :=
  match resolveFolder interactive dialog args with
  | none => .ok (.cancel, initSt doc)
  | some folder => exportAfterFolder host folder doc docW docH

/-- Expected artifact paths of one component layer name: the nine BMP
paths then the nine PNG paths. -/
def expectedCompFiles (folder nm : String) : List String :=
  EXPORT_SIZES.map (pathOf .bmp folder (identOfName nm)) ++
    EXPORT_SIZES.map (pathOf .png folder (identOfName nm))

/-- Expected artifact paths of a whole run, in component order. -/
def expectedFiles (folder : String) (doc : List Layer) : List String :=
  (componentsOf doc).flatMap (fun c => expectedCompFiles folder c.2)

/-- Size set of generate_rc_files, sorted(set([16] + EXPORT_SIZES)),
line 560. -/
def insertSortedSet (x : Nat) : List Nat → List Nat
  | [] => [x]
  | y :: ys => if x < y then x :: y :: ys else if x = y then y :: ys else y :: insertSortedSet x ys

def pySortedSet (l : List Nat) : List Nat := l.foldr insertSortedSet []

def rcSizes : List Nat := pySortedSet (16 :: EXPORT_SIZES)

/-- Component name derivation of generate_rc_files (lines 574-581):
same split as line 384 but the whole step is inside a try whose except
continues with the next layer, so a missing suffix skips the layer
(None) instead of raising. -/
def rcName (raw : String) : Option String :=
  if strStartsWith (pyLower raw) "cmp " then
    match pySplitWs1 raw with
    | _ :: suffix :: _ => some (pyStrip suffix)
    | _ => none
  else some (pyStrip raw)

/-- Lines written into one .rc file (lines 589-595): two comment lines,
then one RCDATA record per size referencing the expected PNG name. -/
def rcLines (nm ident : String) : List String :=
  "// Generated by export plugin" :: ("// Component: " ++ nm) ::
    rcSizes.map (fun s =>
      ident ++ toString s ++ "_PNG RCDATA \"" ++ ident ++ toString s ++ ".png\"")

/-- Expected descriptor file of one component layer. -/
def rcEntry (folder : String) (l : Layer) : String × List String :=
  let nm := (rcName l.name).getD ""
  (pyPathJoin folder (sanitize nm ++ ".rc"), rcLines nm (sanitize nm))

def expectedRc (folder : String) (doc : List Layer) : List (String × List String) :=
  (doc.filter is_component_layer).map (rcEntry folder)

/-- The per-component write loop of generate_rc_files (lines 572-598):
skipped layers (name derivation raised) and failed writes are dropped
from created_files; the second result component is the list of files
actually written, each as its path and its lines. -/
def rcLoop (host : Host) (folder : String) : List Layer → Nat →
    Nat × List (String × List String)
  | [], n => (n, [])
  | l :: rest, n =>
    match rcName l.name with
    | none => rcLoop host folder rest n
    | some nm =>
      let ident := sanitize nm
      let entry := (pyPathJoin folder (ident ++ ".rc"), rcLines nm ident)
      let r := rcLoop host folder rest (n + 1)
      if host.writeOk n then (r.1, entry :: r.2) else (r.1, r.2)

/-- Body of generate_rc_files after the output folder has been
resolved: makedirs (CALLING_ERROR on failure), component collection
(CALLING_ERROR when empty), then one write per component; SUCCESS when
at least one file was written, CALLING_ERROR otherwise.  The Boolean
result records whether os.makedirs was invoked. -/
def rcAfterFolder (host : Host) (folder : String) (doc : List Layer) :
    PDBStatus × Bool × List (String × List String) :=
  if host.mkdirOk then
    match doc.filter is_component_layer with
    | [] => (.callingError, true, [])
    | c :: rest =>
      match (rcLoop host folder (c :: rest) 0).2 with
      | [] => (.callingError, true, [])
      | f :: fs => (.success, true, f :: fs)
  else (.callingError, true, [])

/-- generate_rc_files (lines 533-606): folder resolution (CANCEL on an
absent or blank folder), then rcAfterFolder. -/
def generate_rc_files (host : Host) (interactive : Bool)
    (dialog : Option String) (args : List String) (doc : List Layer) :
    PDBStatus × Bool × List (String × List String) :=
  match resolveFolder interactive dialog args with
  | none => (.cancel, false, [])
  | some folder => rcAfterFolder host folder doc

/-- Host oracle on which every call succeeds. -/
def allOk : Host :=
  { mkdirOk := true, dupOk := fun _ => true, mergeOk := fun _ => true,
    scaleOk := fun _ => true, saveOk := fun _ => true,
    sizeReadable := fun _ => true, writeOk := fun _ => true }

/-- State reached by an export run, also when it ends in a raise. -/
def exportStateOf (r : Except (PyErr × St) (PDBStatus × St)) : St :=
  match r with
  | .ok x => x.2
  | .error e => e.2

/-! Projection lemmas for the elementary state updates. -/

@[simp] theorem deleteImg_files (st : St) (id : Nat) : (deleteImg st id).files = st.files := rfl

@[simp] theorem deleteImg_saveAttempts (st : St) (id : Nat) : (deleteImg st id).saveAttempts = st.saveAttempts := rfl

@[simp] theorem deleteImg_createdBmp (st : St) (id : Nat) : (deleteImg st id).createdBmp = st.createdBmp := rfl

@[simp] theorem deleteImg_createdPng (st : St) (id : Nat) : (deleteImg st id).createdPng = st.createdPng := rfl

@[simp] theorem deleteImg_nextImg (st : St) (id : Nat) : (deleteImg st id).nextImg = st.nextImg := rfl

@[simp] theorem deleteImg_mkdirCalled (st : St) (id : Nat) : (deleteImg st id).mkdirCalled = st.mkdirCalled := rfl

@[simp] theorem deleteImg_log (st : St) (id : Nat) : (deleteImg st id).log = st.log := rfl

@[simp] theorem deleteImg_live (st : St) (id : Nat) : (deleteImg st id).live = st.live.erase id := rfl

@[simp] theorem deleteImg_scaleTargets (st : St) (id : Nat) : (deleteImg st id).scaleTargets = st.scaleTargets := rfl

@[simp] theorem pushLog_files (st : St) (m : String) : (pushLog st m).files = st.files := rfl

@[simp] theorem pushLog_saveAttempts (st : St) (m : String) : (pushLog st m).saveAttempts = st.saveAttempts := rfl

@[simp] theorem pushLog_createdBmp (st : St) (m : String) : (pushLog st m).createdBmp = st.createdBmp := rfl

@[simp] theorem pushLog_createdPng (st : St) (m : String) : (pushLog st m).createdPng = st.createdPng := rfl

@[simp] theorem pushLog_nextImg (st : St) (m : String) : (pushLog st m).nextImg = st.nextImg := rfl

@[simp] theorem pushLog_mkdirCalled (st : St) (m : String) : (pushLog st m).mkdirCalled = st.mkdirCalled := rfl

@[simp] theorem pushLog_live (st : St) (m : String) : (pushLog st m).live = st.live := rfl

/-- State produced by one size iteration when every host call succeeds:
two scale calls (to the target and back to the recorded original
dimensions) and one successful save. -/
def stepAllOkSt (fmt : ImgFormat) (folder ident : String) (s ow oh : Nat) (st : St) : St :=
  let st1 := { st with nScale := st.nScale + 1, scaleTargets := st.scaleTargets ++ [(s, s)] }
  let st2 := { st1 with
    nSave := st1.nSave + 1
    saveAttempts := st1.saveAttempts ++ [pathOf fmt folder ident s]
    files := st1.files ++ [pathOf fmt folder ident s] }
  { st2 with nScale := st2.nScale + 1, scaleTargets := st2.scaleTargets ++ [(ow, oh)] }

theorem stepSize_allOk (fmt : ImgFormat) (folder ident : String) (dW dH s : Nat) (p : PassSt) :
    stepSize allOk fmt folder ident dW dH s p =
      .ok { master := p.master, curW := p.ow, curH := p.oh, ow := p.ow, oh := p.oh,
            st := stepAllOkSt fmt folder ident s p.ow p.oh p.st } := rfl

@[simp] theorem stepAllOkSt_files (fmt : ImgFormat) (folder ident : String) (s ow oh : Nat) (st : St) :
    (stepAllOkSt fmt folder ident s ow oh st).files = st.files ++ [pathOf fmt folder ident s] := rfl

@[simp] theorem stepAllOkSt_saveAttempts (fmt : ImgFormat) (folder ident : String) (s ow oh : Nat) (st : St) :
    (stepAllOkSt fmt folder ident s ow oh st).saveAttempts = st.saveAttempts ++ [pathOf fmt folder ident s] := rfl

@[simp] theorem stepAllOkSt_live (fmt : ImgFormat) (folder ident : String) (s ow oh : Nat) (st : St) :
    (stepAllOkSt fmt folder ident s ow oh st).live = st.live := rfl

@[simp] theorem stepAllOkSt_createdBmp (fmt : ImgFormat) (folder ident : String) (s ow oh : Nat) (st : St) :
    (stepAllOkSt fmt folder ident s ow oh st).createdBmp = st.createdBmp := rfl

@[simp] theorem stepAllOkSt_createdPng (fmt : ImgFormat) (folder ident : String) (s ow oh : Nat) (st : St) :
    (stepAllOkSt fmt folder ident s ow oh st).createdPng = st.createdPng := rfl

@[simp] theorem stepAllOkSt_nextImg (fmt : ImgFormat) (folder ident : String) (s ow oh : Nat) (st : St) :
    (stepAllOkSt fmt folder ident s ow oh st).nextImg = st.nextImg := rfl

@[simp] theorem stepAllOkSt_mkdirCalled (fmt : ImgFormat) (folder ident : String) (s ow oh : Nat) (st : St) :
    (stepAllOkSt fmt folder ident s ow oh st).mkdirCalled = st.mkdirCalled := rfl

@[simp] theorem stepAllOkSt_log (fmt : ImgFormat) (folder ident : String) (s ow oh : Nat) (st : St) :
    (stepAllOkSt fmt folder ident s ow oh st).log = st.log := rfl

theorem runSizes_allOk (fmt : ImgFormat) (folder ident : String) (dW dH : Nat)
    (sizes : List Nat) : ∀ p : PassSt,
    ∃ q, runSizes allOk fmt folder ident dW dH sizes p = .ok q ∧
      q.master = p.master ∧
      q.st.files = p.st.files ++ sizes.map (pathOf fmt folder ident) ∧
      q.st.saveAttempts = p.st.saveAttempts ++ sizes.map (pathOf fmt folder ident) ∧
      q.st.live = p.st.live ∧
      q.st.createdBmp = p.st.createdBmp ∧
      q.st.createdPng = p.st.createdPng ∧
      q.st.nextImg = p.st.nextImg ∧
      q.st.mkdirCalled = p.st.mkdirCalled ∧
      q.st.log = p.st.log := by
  induction sizes with
  | nil =>
    intro p
    exact ⟨p, by simp [runSizes], rfl, by simp, by simp, rfl, rfl, rfl, rfl, rfl, rfl⟩
  | cons s rest ih =>
    intro p
    obtain ⟨q, hq, hm, hf, ha, hl, hb, hp2, hn, hk, hg⟩ := ih
      { master := p.master, curW := p.ow, curH := p.oh, ow := p.ow, oh := p.oh,
        st := stepAllOkSt fmt folder ident s p.ow p.oh p.st }
    refine ⟨q, ?_, hm, ?_, ?_, ?_, ?_, ?_, ?_, ?_, ?_⟩
    · rw [runSizes, stepSize_allOk]
      exact hq
    · simp [hf]
    · simp [ha]
    · simpa using hl
    · simpa using hb
    · simpa using hp2
    · simpa using hn
    · simpa using hk
    · simpa using hg

theorem identOk_spec (nm : String) (h : identOk nm = true) :
    compIdent nm = .ok (identOfName nm) := by
  unfold identOfName
  cases hc : compIdent nm with
  | ok i => simp
  | error e =>
    exfalso
    unfold identOk at h
    rw [hc] at h
    exact Bool.noConfusion h

/-- Pass-local state right after the successful duplicate, merge and
size read that open a master pass. -/
def passInit (fmt : ImgFormat) (dW dH : Nat) (st : St) : PassSt :=
  { master := st.nextImg, curW := dW, curH := dH, ow := dW, oh := dH,
    st := { st with
      doc := setVisNamed (setVisNamed st.doc "Fucsia Background" (isBmpFmt fmt))
        "Transparent Background" (!isBmpFmt fmt)
      nDup := st.nDup + 1
      nMerge := st.nMerge + 1
      nSizeRead := st.nSizeRead + 1
      nextImg := st.nextImg + 1
      live := st.nextImg :: st.live
      createdBmp := if isBmpFmt fmt then st.createdBmp ++ [st.nextImg] else st.createdBmp
      createdPng := if isBmpFmt fmt then st.createdPng else st.createdPng ++ [st.nextImg] } }

theorem masterPass_allOk_eq (fmt : ImgFormat) (folder ident : String) (dW dH : Nat) (st : St) :
    masterPass allOk fmt folder ident dW dH st =
      finishPass fmt (runSizes allOk fmt folder ident dW dH EXPORT_SIZES
        (passInit fmt dW dH st)) := rfl

@[simp] theorem finishPass_ok (fmt : ImgFormat) (p : PassSt) :
    finishPass fmt (.ok p) = deleteImg p.st p.master := rfl

@[simp] theorem finishPass_err (fmt : ImgFormat) (mv : Nat) (stE : St) :
    finishPass fmt (.error (mv, stE)) =
      deleteImg (pushLog stE ("Error preparing " ++ extOf fmt ++ " master")) mv := rfl

@[simp] theorem passInit_master (fmt : ImgFormat) (dW dH : Nat) (st : St) :
    (passInit fmt dW dH st).master = st.nextImg := rfl

@[simp] theorem passInit_files (fmt : ImgFormat) (dW dH : Nat) (st : St) :
    (passInit fmt dW dH st).st.files = st.files := rfl

@[simp] theorem passInit_saveAttempts (fmt : ImgFormat) (dW dH : Nat) (st : St) :
    (passInit fmt dW dH st).st.saveAttempts = st.saveAttempts := rfl

@[simp] theorem passInit_live (fmt : ImgFormat) (dW dH : Nat) (st : St) :
    (passInit fmt dW dH st).st.live = st.nextImg :: st.live := rfl

@[simp] theorem passInit_createdBmp (fmt : ImgFormat) (dW dH : Nat) (st : St) :
    (passInit fmt dW dH st).st.createdBmp
      = if isBmpFmt fmt then st.createdBmp ++ [st.nextImg] else st.createdBmp := rfl

@[simp] theorem passInit_createdPng (fmt : ImgFormat) (dW dH : Nat) (st : St) :
    (passInit fmt dW dH st).st.createdPng
      = if isBmpFmt fmt then st.createdPng else st.createdPng ++ [st.nextImg] := rfl

@[simp] theorem passInit_nextImg (fmt : ImgFormat) (dW dH : Nat) (st : St) :
    (passInit fmt dW dH st).st.nextImg = st.nextImg + 1 := rfl

@[simp] theorem passInit_mkdirCalled (fmt : ImgFormat) (dW dH : Nat) (st : St) :
    (passInit fmt dW dH st).st.mkdirCalled = st.mkdirCalled := rfl

@[simp] theorem passInit_log (fmt : ImgFormat) (dW dH : Nat) (st : St) :
    (passInit fmt dW dH st).st.log = st.log := rfl

theorem masterPass_allOk (fmt : ImgFormat) (folder ident : String) (dW dH : Nat) (st : St) :
    (masterPass allOk fmt folder ident dW dH st).files
        = st.files ++ EXPORT_SIZES.map (pathOf fmt folder ident) ∧
    (masterPass allOk fmt folder ident dW dH st).saveAttempts
        = st.saveAttempts ++ EXPORT_SIZES.map (pathOf fmt folder ident) ∧
    (masterPass allOk fmt folder ident dW dH st).live = st.live ∧
    (masterPass allOk fmt folder ident dW dH st).createdBmp
        = (if isBmpFmt fmt then st.createdBmp ++ [st.nextImg] else st.createdBmp) ∧
    (masterPass allOk fmt folder ident dW dH st).createdPng
        = (if isBmpFmt fmt then st.createdPng else st.createdPng ++ [st.nextImg]) ∧
    (masterPass allOk fmt folder ident dW dH st).nextImg = st.nextImg + 1 ∧
    (masterPass allOk fmt folder ident dW dH st).mkdirCalled = st.mkdirCalled ∧
    (masterPass allOk fmt folder ident dW dH st).log = st.log := by
  obtain ⟨q, hq, hm, hf, ha, hl, hb, hp2, hn, hk, hg⟩ :=
    runSizes_allOk fmt folder ident dW dH EXPORT_SIZES (passInit fmt dW dH st)
  have hrun : masterPass allOk fmt folder ident dW dH st = deleteImg q.st q.master := by
    rw [masterPass_allOk_eq, hq, finishPass_ok]
  rw [hrun]
  refine ⟨?_, ?_, ?_, ?_, ?_, ?_, ?_, ?_⟩
  · rw [deleteImg_files, hf, passInit_files]
  · rw [deleteImg_saveAttempts, ha, passInit_saveAttempts]
  · rw [deleteImg_live, hl, hm, passInit_live, passInit_master, List.erase_cons_head]
  · rw [deleteImg_createdBmp, hb, passInit_createdBmp]
  · rw [deleteImg_createdPng, hp2, passInit_createdPng]
  · rw [deleteImg_nextImg, hn, passInit_nextImg]
  · rw [deleteImg_mkdirCalled, hk, passInit_mkdirCalled]
  · rw [deleteImg_log, hg, passInit_log]

theorem exportComp_allOk (folder : String) (dW dH : Nat)
    (allComps : List (Nat × String)) (c : Nat × String) (st : St)
    (hident : identOk c.2 = true) :
    ∃ st3, exportComp allOk folder dW dH allComps c st = .ok st3 ∧
      st3.files = st.files ++ expectedCompFiles folder c.2 ∧
      st3.saveAttempts = st.saveAttempts ++ expectedCompFiles folder c.2 ∧
      st3.live = st.live ∧
      st3.createdBmp.length = st.createdBmp.length + 1 ∧
      st3.createdPng.length = st.createdPng.length + 1 ∧
      st3.mkdirCalled = st.mkdirCalled ∧
      st3.log = st.log := by
  have hid := identOk_spec c.2 hident
  unfold exportComp
  rw [hid]
  set ident := identOfName c.2 with hidn
  set st1 : St := { st with
    doc := setVisList (setVisNamed
      (allComps.foldl (fun d ic => setVisList d ic.1 false) st.doc) "Small logo" true) c.1 true }
    with hst1
  obtain ⟨hbf, hba, hbl, hbb, hbp, hbn, hbk, hbg⟩ := masterPass_allOk .bmp folder ident dW dH st1
  obtain ⟨hpf, hpa, hpl, hpb, hpp, hpn, hpk, hpg⟩ :=
    masterPass_allOk .png folder ident dW dH (masterPass allOk .bmp folder ident dW dH st1)
  refine ⟨_, rfl, ?_, ?_, ?_, ?_, ?_, ?_, ?_⟩
  · simp [hpf, hbf, hst1, expectedCompFiles]
  · simp [hpa, hba, hst1, expectedCompFiles]
  · simp [hpl, hbl, hst1]
  · simp [hpb, hbb, isBmpFmt, hst1]
  · simp [hpp, hbp, hbn, isBmpFmt, hst1]
  · simp [hpk, hbk, hst1]
  · simp [hpg, hbg, hst1]

theorem exportLoop_nil (host : Host) (folder : String) (dW dH : Nat)
    (allComps : List (Nat × String)) (st : St) :
    exportLoop host folder dW dH allComps [] st = .ok st := rfl

set_option maxHeartbeats 4000000 in
theorem exportLoop_cons_ok (host : Host) (folder : String) (dW dH : Nat)
    (allComps : List (Nat × String)) (c : Nat × String) (rest : List (Nat × String))
    (st s2 : St) (h : exportComp host folder dW dH allComps c st = .ok s2) :
    exportLoop host folder dW dH allComps (c :: rest) st =
      exportLoop host folder dW dH allComps rest s2 := by
  rw [exportLoop, h]

set_option maxHeartbeats 1000000 in
theorem exportLoop_cons_err (host : Host) (folder : String) (dW dH : Nat)
    (allComps : List (Nat × String)) (c : Nat × String) (rest : List (Nat × String))
    (st : St) (e : PyErr × St) (h : exportComp host folder dW dH allComps c st = .error e) :
    exportLoop host folder dW dH allComps (c :: rest) st = .error e := by
  rw [exportLoop, h]

theorem exportLoop_allOk (folder : String) (dW dH : Nat)
    (allComps : List (Nat × String)) (comps : List (Nat × String)) :
    ∀ st : St, (∀ c ∈ comps, identOk c.2 = true) →
    ∃ st2, exportLoop allOk folder dW dH allComps comps st = .ok st2 ∧
      st2.files = st.files ++ comps.flatMap (fun c => expectedCompFiles folder c.2) ∧
      st2.saveAttempts = st.saveAttempts ++ comps.flatMap (fun c => expectedCompFiles folder c.2) ∧
      st2.live = st.live ∧
      st2.createdBmp.length = st.createdBmp.length + comps.length ∧
      st2.createdPng.length = st.createdPng.length + comps.length ∧
      st2.mkdirCalled = st.mkdirCalled ∧
      st2.log = st.log := by
  induction comps with
  | nil =>
    intro st _
    exact ⟨st, rfl, by simp, by simp, rfl, by simp, by simp, rfl, rfl⟩
  | cons c rest ih =>
    intro st hval
    obtain ⟨st3, hc, hf3, ha3, hl3, hb3, hp3, hk3, hg3⟩ :=
      exportComp_allOk folder dW dH allComps c st (hval c (by simp))
    obtain ⟨st2, hrest, hf2, ha2, hl2, hb2, hp2, hk2, hg2⟩ :=
      ih st3 (fun x hx => hval x (by simp [hx]))
    refine ⟨st2, ?_, ?_, ?_, ?_, ?_, ?_, ?_, ?_⟩
    · rw [exportLoop_cons_ok allOk folder dW dH allComps c rest st st3 hc]
      exact hrest
    · rw [hf2, hf3]
      simp
    · rw [ha2, ha3]
      simp
    · rw [hl2, hl3]
    · rw [hb2, hb3]
      simp only [List.length_cons]
      omega
    · rw [hp2, hp3]
      simp only [List.length_cons]
      omega
    · rw [hk2, hk3]
    · rw [hg2, hg3]

theorem resolveFolder_some (interactive : Bool) (dialog : Option String)
    (args : List String) (folder : String)
    (h : (if interactive then dialog else args.head?) = some folder)
    (hfold : pyStrip folder ≠ "") :
    resolveFolder interactive dialog args = some folder := by
  unfold resolveFolder
  rw [h]
  simp [hfold]

@[simp] theorem initStMkdir_files (doc : List Layer) : (initStMkdir doc).files = [] := rfl

@[simp] theorem initStMkdir_saveAttempts (doc : List Layer) : (initStMkdir doc).saveAttempts = [] := rfl

@[simp] theorem initStMkdir_live (doc : List Layer) : (initStMkdir doc).live = [] := rfl

@[simp] theorem initStMkdir_createdBmp (doc : List Layer) : (initStMkdir doc).createdBmp = [] := rfl

@[simp] theorem initStMkdir_createdPng (doc : List Layer) : (initStMkdir doc).createdPng = [] := rfl

@[simp] theorem initStMkdir_mkdirCalled (doc : List Layer) : (initStMkdir doc).mkdirCalled = true := rfl

@[simp] theorem initStMkdir_log (doc : List Layer) : (initStMkdir doc).log = [] := rfl

@[simp] theorem initSt_files (doc : List Layer) : (initSt doc).files = [] := rfl

@[simp] theorem initSt_live (doc : List Layer) : (initSt doc).live = [] := rfl

@[simp] theorem initSt_mkdirCalled (doc : List Layer) : (initSt doc).mkdirCalled = false := rfl

theorem export_eq_cancel (host : Host) (interactive : Bool) (dialog : Option String)
    (args : List String) (doc : List Layer) (dW dH : Nat)
    (h : resolveFolder interactive dialog args = none) :
    export_component_variants_no_pdb host interactive dialog args doc dW dH
      = .ok (.cancel, initSt doc) := by
  unfold export_component_variants_no_pdb
  rw [h]

theorem export_eq_folder (host : Host) (interactive : Bool) (dialog : Option String)
    (args : List String) (doc : List Layer) (dW dH : Nat) (folder : String)
    (h : resolveFolder interactive dialog args = some folder) :
    export_component_variants_no_pdb host interactive dialog args doc dW dH
      = exportAfterFolder host folder doc dW dH := by
  unfold export_component_variants_no_pdb
  rw [h]

theorem eaf_mkdirFail (host : Host) (folder : String) (doc : List Layer) (dW dH : Nat)
    (hmk : host.mkdirOk = false) :
    exportAfterFolder host folder doc dW dH = .ok (.callingError, initStMkdir doc) := by
  unfold exportAfterFolder
  rw [hmk]
  rfl

theorem eaf_noComps (host : Host) (folder : String) (doc : List Layer) (dW dH : Nat)
    (hmk : host.mkdirOk = true) (hcomp : componentsOf doc = []) :
    exportAfterFolder host folder doc dW dH = .ok (.callingError, initStMkdir doc) := by
  unfold exportAfterFolder
  rw [hmk, hcomp]
  rfl

theorem eaf_run_ok (host : Host) (folder : String) (doc : List Layer) (dW dH : Nat)
    (c : Nat × String) (rest : List (Nat × String)) (st2 : St)
    (hmk : host.mkdirOk = true) (hcomp : componentsOf doc = c :: rest)
    (hloop : exportLoop host folder dW dH (c :: rest) (c :: rest) (initStMkdir doc)
      = .ok st2) :
    exportAfterFolder host folder doc dW dH = .ok (.success, st2) := by
  unfold exportAfterFolder
  rw [hmk, hcomp]
  simp only [reduceIte]
  rw [hloop]

theorem eaf_run_err (host : Host) (folder : String) (doc : List Layer) (dW dH : Nat)
    (c : Nat × String) (rest : List (Nat × String)) (e : PyErr × St)
    (hmk : host.mkdirOk = true) (hcomp : componentsOf doc = c :: rest)
    (hloop : exportLoop host folder dW dH (c :: rest) (c :: rest) (initStMkdir doc)
      = .error e) :
    exportAfterFolder host folder doc dW dH = .error e := by
  unfold exportAfterFolder
  rw [hmk, hcomp]
  simp only [reduceIte]
  rw [hloop]

/-- Claim C1: for every layer C of the Document whose name starts with
"Cmp ", one run of the icon-export operation with no host failures
produces exactly the nine BMP files and nine PNG files
outputFolder/ident(C)s.bmp and outputFolder/ident(C)s.png for the nine
sizes s of EXPORT_SIZES, where ident(C) is the identifier line 384
derives from C (the sanitized stripped suffix after the prefix), and no
files for non-component layers: the trace of successful saves is
exactly expectedFiles, the concatenation over component layers of the
nine BMP paths then the nine PNG paths, and nothing else. -/
theorem C1_export_produces_exact_variant_files (doc : List Layer) (folder : String)
    (dW dH : Nat)
    (hfold : pyStrip folder ≠ "")
    (hne : componentsOf doc ≠ [])
    (hval : ∀ c ∈ componentsOf doc, identOk c.2 = true) :
    ∃ st, export_component_variants_no_pdb allOk false none [folder] doc dW dH
        = .ok (.success, st) ∧
      st.files = expectedFiles folder doc := by
  have hres : resolveFolder false none [folder] = some folder :=
    resolveFolder_some false none [folder] folder rfl hfold
  cases hcomp : componentsOf doc with
  | nil => exact absurd hcomp hne
  | cons c rest =>
    obtain ⟨st2, hloop, hf, -, -, -, -, -, -⟩ :=
      exportLoop_allOk folder dW dH (c :: rest) (c :: rest)
        (initStMkdir doc) (by rw [← hcomp]; exact hval)
    refine ⟨st2, ?_, ?_⟩
    · rw [export_eq_folder allOk false none [folder] doc dW dH folder hres]
      exact eaf_run_ok allOk folder doc dW dH c rest st2 rfl hcomp hloop
    · rw [hf]
      simp [expectedFiles, hcomp]

/-- Component layers of the scenario of the testable properties: one
component and the auxiliary logo layer. -/
def docTButton : List Layer := [⟨"Cmp TButton", true⟩, ⟨"Small logo", true⟩]

theorem C1_export_produces_exact_variant_files_witness :
    ∃ st, export_component_variants_no_pdb allOk false none ["/tmp/out"] docTButton 1024 1024
        = .ok (.success, st) ∧
      st.files = expectedFiles "/tmp/out" docTButton :=
  C1_export_produces_exact_variant_files docTButton "/tmp/out" 1024 1024
    (by decide) (by decide) (by decide)

/-- Boolean test that the rc name derivation does not skip a layer. -/
def rcNameOk (nm : String) : Bool :=
  (rcName nm).isSome

theorem rcNameOk_spec (nm : String) (h : rcNameOk nm = true) :
    rcName nm = some ((rcName nm).getD "") := by
  unfold rcNameOk at h
  cases hc : rcName nm with
  | some v => simp
  | none =>
    rw [hc] at h
    simp at h

set_option maxHeartbeats 1000000 in
theorem rcLoop_cons_skip (host : Host) (folder : String) (l : Layer)
    (rest : List Layer) (n : Nat) (h : rcName l.name = none) :
    rcLoop host folder (l :: rest) n = rcLoop host folder rest n := by
  rw [rcLoop, h]

set_option maxHeartbeats 1000000 in
theorem rcLoop_cons_write (host : Host) (folder : String) (l : Layer)
    (rest : List Layer) (n : Nat) (nm : String) (h : rcName l.name = some nm)
    (hw : host.writeOk n = true) :
    rcLoop host folder (l :: rest) n =
      ((rcLoop host folder rest (n + 1)).1,
       (pyPathJoin folder (sanitize nm ++ ".rc"), rcLines nm (sanitize nm))
         :: (rcLoop host folder rest (n + 1)).2) := by
  rw [rcLoop, h, hw]
  rfl

theorem rcLoop_allWrites (host : Host) (folder : String)
    (hw : ∀ k, host.writeOk k = true) (comps : List Layer) :
    ∀ n, (∀ l ∈ comps, rcNameOk l.name = true) →
    (rcLoop host folder comps n).2 = comps.map (rcEntry folder) := by
  induction comps with
  | nil => intro n _; rfl
  | cons l rest ih =>
    intro n hval
    have hnm := rcNameOk_spec l.name (hval l (by simp))
    rw [rcLoop_cons_write host folder l rest n ((rcName l.name).getD "") hnm (hw n)]
    simp only [rcEntry, List.map_cons]
    rw [ih (n + 1) (fun x hx => hval x (by simp [hx]))]

theorem rc_eq_cancel (host : Host) (interactive : Bool) (dialog : Option String)
    (args : List String) (doc : List Layer)
    (h : resolveFolder interactive dialog args = none) :
    generate_rc_files host interactive dialog args doc = (.cancel, false, []) := by
  unfold generate_rc_files
  rw [h]

theorem rc_eq_folder (host : Host) (interactive : Bool) (dialog : Option String)
    (args : List String) (doc : List Layer) (folder : String)
    (h : resolveFolder interactive dialog args = some folder) :
    generate_rc_files host interactive dialog args doc = rcAfterFolder host folder doc := by
  unfold generate_rc_files
  rw [h]

theorem raf_mkdirFail (host : Host) (folder : String) (doc : List Layer)
    (hmk : host.mkdirOk = false) :
    rcAfterFolder host folder doc = (.callingError, true, []) := by
  unfold rcAfterFolder
  rw [hmk]
  rfl

theorem raf_noComps (host : Host) (folder : String) (doc : List Layer)
    (hmk : host.mkdirOk = true) (hcomp : doc.filter is_component_layer = []) :
    rcAfterFolder host folder doc = (.callingError, true, []) := by
  unfold rcAfterFolder
  rw [hmk, hcomp]
  rfl

theorem raf_run_ok (host : Host) (folder : String) (doc : List Layer)
    (c : Layer) (rest : List Layer) (f : String × List String) (fs : List (String × List String))
    (hmk : host.mkdirOk = true) (hcomp : doc.filter is_component_layer = c :: rest)
    (hloop : (rcLoop host folder (c :: rest) 0).2 = f :: fs) :
    rcAfterFolder host folder doc = (.success, true, f :: fs) := by
  unfold rcAfterFolder
  rw [hmk, hcomp]
  simp only [reduceIte]
  rw [hloop]

/-- Claim C2 (amended): for a Document with N component layers,
generate_rc_files with no host failures writes one descriptor file
outputFolder/ident.rc per component layer (N files), where the size set
is sorted(set(16 :: EXPORT_SIZES)) = the ten ascending sizes
16,24,...,1024; each file contains one RCDATA record per size
referencing ident + size + ".png", preceded by two comment lines, so
each file has rcSizes.length + 2 = 12 lines (not 10); this holds
independently of the export operation, whose state generate_rc_files
never reads. -/
theorem C2_rc_descriptor_files_amended (doc : List Layer) (folder : String)
    (hfold : pyStrip folder ≠ "")
    (hne : doc.filter is_component_layer ≠ [])
    (hval : ∀ l ∈ doc.filter is_component_layer, rcNameOk l.name = true) :
    generate_rc_files allOk false none [folder] doc
        = (.success, true, expectedRc folder doc) ∧
    (expectedRc folder doc).length = (doc.filter is_component_layer).length ∧
    rcSizes = [16, 24, 32, 48, 72, 96, 128, 256, 512, 1024] ∧
    ∀ e ∈ expectedRc folder doc, e.2.length = rcSizes.length + 2 := by
  have hres : resolveFolder false none [folder] = some folder :=
    resolveFolder_some false none [folder] folder rfl hfold
  refine ⟨?_, by simp [expectedRc], by decide, ?_⟩
  · cases hcomp : doc.filter is_component_layer with
    | nil => exact absurd hcomp hne
    | cons c rest =>
      have hloop := rcLoop_allWrites allOk folder (fun k => rfl) (c :: rest) 0
        (by rw [← hcomp]; exact hval)
      rw [List.map_cons] at hloop
      rw [rc_eq_folder allOk false none [folder] doc folder hres,
        raf_run_ok allOk folder doc c rest (rcEntry folder c) (rest.map (rcEntry folder))
          rfl hcomp hloop]
      simp [expectedRc, hcomp]
  · intro e he
    simp only [expectedRc, List.mem_map] at he
    obtain ⟨l, hl, rfl⟩ := he
    simp [rcEntry, rcLines]

/-- Claim C2 counterexample: the claim as stated requires each .rc file
to contain exactly M = 10 lines; on a Document with the single
component layer "Cmp TButton" the generated file has 12 lines (two
comment lines precede the ten records). -/
theorem C2_counterexample_rc_has_twelve_lines :
    rcSizes.length = 10 ∧
    (generate_rc_files allOk false none ["/tmp/out"] [⟨"Cmp TButton", true⟩]).2.2.map
      (fun e => e.2.length) = [12] := by decide

theorem C2_rc_descriptor_files_amended_witness :
    generate_rc_files allOk false none ["/tmp/out"] docTButton
        = (.success, true, expectedRc "/tmp/out" docTButton) ∧
    (expectedRc "/tmp/out" docTButton).length
        = (docTButton.filter is_component_layer).length ∧
    rcSizes = [16, 24, 32, 48, 72, 96, 128, 256, 512, 1024] ∧
    ∀ e ∈ expectedRc "/tmp/out" docTButton, e.2.length = rcSizes.length + 2 :=
  C2_rc_descriptor_files_amended docTButton "/tmp/out" (by decide) (by decide) (by decide)

theorem runSizes_cons_ok (host : Host) (fmt : ImgFormat) (folder ident : String)
    (dW dH s : Nat) (rest : List Nat) (p p2 : PassSt)
    (h : stepSize host fmt folder ident dW dH s p = .ok p2) :
    runSizes host fmt folder ident dW dH (s :: rest) p =
      runSizes host fmt folder ident dW dH rest p2 := by
  rw [runSizes, h]

theorem runSizes_cons_err (host : Host) (fmt : ImgFormat) (folder ident : String)
    (dW dH s : Nat) (rest : List Nat) (p : PassSt) (e : Nat × St)
    (h : stepSize host fmt folder ident dW dH s p = .error e) :
    runSizes host fmt folder ident dW dH (s :: rest) p = .error e := by
  rw [runSizes, h]


/-! Live-master tracking for an arbitrary pattern of host failures. -/

theorem stepPre_live (host : Host) (fmt : ImgFormat) (folder ident : String)
    (s : Nat) (p : PassSt) :
    (stepPre host fmt folder ident s p).1.live = p.st.live := by
  rcases h1 : host.scaleOk p.st.nScale <;>
    rcases h2 : host.saveOk p.st.nSave <;>
      simp [stepPre, tryScaleDims, callScale, callSave, pushLog, h1, h2]

theorem stepPre_saveAttempts (host : Host) (fmt : ImgFormat) (folder ident : String)
    (s : Nat) (p : PassSt) :
    (stepPre host fmt folder ident s p).1.saveAttempts
      = p.st.saveAttempts ++ [pathOf fmt folder ident s] := by
  rcases h1 : host.scaleOk p.st.nScale <;>
    rcases h2 : host.saveOk p.st.nSave <;>
      simp [stepPre, tryScaleDims, callScale, callSave, pushLog, h1, h2]

@[simp] theorem callMerge_snd_live (host : Host) (st : St) :
    (callMerge host st).2.live = st.live := rfl

@[simp] theorem callSizeRead_snd_live (host : Host) (st : St) :
    (callSizeRead host st).2.live = st.live := rfl

/-- Exit condition of the size loop preserving the live-master shape:
either it returns with the master as the only live image, or the state
it aborts with has its live set emptied by deleting the carried master. -/
def LiveExit (r : Except (Nat × St) PassSt) : Prop :=
  match r with
  | .ok q => q.st.live = [q.master]
  | .error (m, st2) => st2.live.erase m = []

@[simp] theorem LiveExit_ok (q : PassSt) : LiveExit (.ok q) = (q.st.live = [q.master]) := rfl

@[simp] theorem LiveExit_err (m : Nat) (st2 : St) :
    LiveExit (.error (m, st2)) = (st2.live.erase m = []) := rfl

theorem recreateMaster_live (host : Host) (fmt : ImgFormat) (dW dH oldM : Nat)
    (st : St) (hl : st.live.erase oldM = []) :
    LiveExit (recreateMaster host fmt dW dH oldM st) := by
  rcases h4 : host.dupOk st.nDup <;> rcases h5 : host.mergeOk st.nMerge <;>
    simp [recreateMaster, callDup, callMerge, callSizeRead, deleteImg, pushLog,
      LiveExit, h4, h5, hl]

theorem stepSize_live (host : Host) (fmt : ImgFormat) (folder ident : String)
    (dW dH s : Nat) (p : PassSt) (hp : p.st.live = [p.master]) :
    LiveExit (stepSize host fmt folder ident dW dH s p) := by
  have hpre := stepPre_live host fmt folder ident s p
  rcases h3 : host.scaleOk (stepPre host fmt folder ident s p).1.nScale with _ | _
  · simp only [stepSize, tryScaleDims, callScale, h3, Bool.false_eq_true, if_false,
      reduceIte]
    exact recreateMaster_live host fmt dW dH p.master _
      (by simp [hpre, hp, List.erase_cons_head])
  · simp only [stepSize, tryScaleDims, callScale, h3, if_true, reduceIte]
    simp [LiveExit, hpre, hp]

theorem runSizes_live (host : Host) (fmt : ImgFormat) (folder ident : String)
    (dW dH : Nat) (sizes : List Nat) :
    ∀ p : PassSt, p.st.live = [p.master] →
    LiveExit (runSizes host fmt folder ident dW dH sizes p) := by
  induction sizes with
  | nil =>
    intro p hp
    simpa [runSizes, LiveExit] using hp
  | cons s rest ih =>
    intro p hp
    have hs := stepSize_live host fmt folder ident dW dH s p hp
    cases hstep : stepSize host fmt folder ident dW dH s p with
    | ok p2 =>
      rw [runSizes_cons_ok host fmt folder ident dW dH s rest p p2 hstep]
      rw [hstep] at hs
      exact ih p2 (by simpa [LiveExit] using hs)
    | error e =>
      rw [runSizes_cons_err host fmt folder ident dW dH s rest p e hstep]
      rw [hstep] at hs
      exact hs

theorem finishPass_live (fmt : ImgFormat) (r : Except (Nat × St) PassSt)
    (h : LiveExit r) : (finishPass fmt r).live = [] := by
  cases r with
  | ok q =>
    rw [finishPass_ok]
    rw [LiveExit_ok] at h
    simp [deleteImg, h]
  | error e =>
    rcases e with ⟨mv, stE⟩
    rw [finishPass_err]
    rw [LiveExit_err] at h
    simp [deleteImg, pushLog, h]

theorem masterPass_live (host : Host) (fmt : ImgFormat) (folder ident : String)
    (dW dH : Nat) (st : St) (hl : st.live = []) :
    (masterPass host fmt folder ident dW dH st).live = [] := by
  rcases h4 : host.dupOk st.nDup with _ | _
  · simp [masterPass, callDup, h4, pushLog, hl]
  · rcases h5 : host.mergeOk st.nMerge with _ | _
    · simp [masterPass, callDup, callMerge, h4, h5, deleteImg, pushLog, hl]
    · simp only [masterPass, callDup, callMerge, callSizeRead, h4, h5, reduceIte]
      exact finishPass_live fmt _
        (runSizes_live host fmt folder ident dW dH EXPORT_SIZES _ (by simp [hl]))

/-- Exit condition of the component loop: whether it returns or raises,
no master image is live. -/
def CompExitLive (r : Except (PyErr × St) St) : Prop :=
  match r with
  | .ok st3 => st3.live = []
  | .error e => e.2.live = []

@[simp] theorem CompExitLive_ok (st3 : St) : CompExitLive (.ok st3) = (st3.live = []) := rfl

@[simp] theorem CompExitLive_err (e : PyErr × St) :
    CompExitLive (.error e) = (e.2.live = []) := rfl

theorem exportComp_live (host : Host) (folder : String) (dW dH : Nat)
    (allComps : List (Nat × String)) (c : Nat × String) (st : St) (hl : st.live = []) :
    CompExitLive (exportComp host folder dW dH allComps c st) := by
  cases hid : compIdent c.2 with
  | error e =>
    simp [exportComp, hid, CompExitLive, hl]
  | ok ident =>
    simp only [exportComp, hid, CompExitLive_ok]
    exact masterPass_live host .png folder ident dW dH _
      (masterPass_live host .bmp folder ident dW dH _ (by simp [hl]))

theorem exportLoop_live (host : Host) (folder : String) (dW dH : Nat)
    (allComps : List (Nat × String)) (comps : List (Nat × String)) :
    ∀ st : St, st.live = [] →
    CompExitLive (exportLoop host folder dW dH allComps comps st) := by
  induction comps with
  | nil =>
    intro st hl
    simpa [exportLoop_nil, CompExitLive] using hl
  | cons c rest ih =>
    intro st hl
    have hc := exportComp_live host folder dW dH allComps c st hl
    cases hcomp : exportComp host folder dW dH allComps c st with
    | ok st3 =>
      rw [exportLoop_cons_ok host folder dW dH allComps c rest st st3 hcomp]
      rw [hcomp] at hc
      exact ih st3 (by simpa [CompExitLive] using hc)
    | error e =>
      rw [exportLoop_cons_err host folder dW dH allComps c rest st e hcomp]
      rw [hcomp] at hc
      exact hc

theorem export_live (host : Host) (interactive : Bool) (dialog : Option String)
    (args : List String) (doc : List Layer) (dW dH : Nat) :
    (exportStateOf (export_component_variants_no_pdb host interactive dialog
      args doc dW dH)).live = [] := by
  cases hres : resolveFolder interactive dialog args with
  | none =>
    rw [export_eq_cancel host interactive dialog args doc dW dH hres]
    simp [exportStateOf]
  | some folder =>
    rw [export_eq_folder host interactive dialog args doc dW dH folder hres]
    rcases hmk : host.mkdirOk with _ | _
    · rw [eaf_mkdirFail host folder doc dW dH hmk]
      simp [exportStateOf]
    · cases hcomp : componentsOf doc with
      | nil =>
        rw [eaf_noComps host folder doc dW dH hmk hcomp]
        simp [exportStateOf]
      | cons c rest =>
        have hloop := exportLoop_live host folder dW dH (c :: rest) (c :: rest)
          (initStMkdir doc) (by simp)
        cases hl : exportLoop host folder dW dH (c :: rest) (c :: rest) (initStMkdir doc) with
        | ok st2 =>
          rw [eaf_run_ok host folder doc dW dH c rest st2 hmk hcomp hl]
          rw [hl] at hloop
          simpa [exportStateOf, CompExitLive] using hloop
        | error e =>
          rw [eaf_run_err host folder doc dW dH c rest e hmk hcomp hl]
          rw [hl] at hloop
          simpa [exportStateOf, CompExitLive] using hloop

/-- Host on which only the second scale call (the first restore of the
BMP pass) fails: the finally block then deletes the BMP master and
duplicates a fresh one. -/
def hostRestoreFail : Host :=
  { allOk with scaleOk := fun n => decide (n ≠ 1) }

/-- Claim C3 (amended): during one run of the icon-export operation no
master image ever survives its component's pass — for every host
failure pattern, every input and both exit modes (return or raise) the
final live-image set is empty, because the finally blocks delete
whatever the master variable holds; and, absent host failures, exactly
one BMP master and exactly one PNG master are created per component
layer.  (When a restore scale fails, the recovery path deletes the
master and creates a second one for the same component, so "exactly
one created" holds only without restore failures.) -/
theorem C3_masters_deleted_amended :
    (∀ (host : Host) (interactive : Bool) (dialog : Option String)
        (args : List String) (doc : List Layer) (dW dH : Nat),
      (exportStateOf (export_component_variants_no_pdb host interactive dialog
        args doc dW dH)).live = []) ∧
    (∀ (doc : List Layer) (folder : String) (dW dH : Nat),
      pyStrip folder ≠ "" → componentsOf doc ≠ [] →
      (∀ c ∈ componentsOf doc, identOk c.2 = true) →
      ∃ st, export_component_variants_no_pdb allOk false none [folder] doc dW dH
          = .ok (.success, st) ∧
        st.createdBmp.length = (componentsOf doc).length ∧
        st.createdPng.length = (componentsOf doc).length) := by
  constructor
  · exact export_live
  · intro doc folder dW dH hfold hne hval
    have hres : resolveFolder false none [folder] = some folder :=
      resolveFolder_some false none [folder] folder rfl hfold
    cases hcomp : componentsOf doc with
    | nil => exact absurd hcomp hne
    | cons c rest =>
      obtain ⟨st2, hloop, -, -, -, hb, hp, -, -⟩ :=
        exportLoop_allOk folder dW dH (c :: rest) (c :: rest)
          (initStMkdir doc) (by rw [← hcomp]; exact hval)
      refine ⟨st2, ?_, ?_, ?_⟩
      · rw [export_eq_folder allOk false none [folder] doc dW dH folder hres]
        exact eaf_run_ok allOk folder doc dW dH c rest st2 rfl hcomp hloop
      · rw [hb]
        simp
      · rw [hp]
        simp

/-- Claim C3 counterexample: the claim as stated says exactly one BMP
master is created per component; with one component layer and a host on
which the first restore scale fails, two BMP masters are created
(image ids 0 and 1), the second by the recovery path of the finally
block. -/
theorem C3_counterexample_two_bmp_masters :
    (componentsOf [⟨"Cmp A", true⟩]).length = 1 ∧
    (exportStateOf (export_component_variants_no_pdb hostRestoreFail false none
      ["/o"] [⟨"Cmp A", true⟩] 64 64)).createdBmp.length = 2 ∧
    (exportStateOf (export_component_variants_no_pdb hostRestoreFail false none
      ["/o"] [⟨"Cmp A", true⟩] 64 64)).live = [] := by decide

theorem C3_masters_deleted_amended_witness :
    ∃ st, export_component_variants_no_pdb allOk false none ["/tmp/out"] docTButton 1024 1024
        = .ok (.success, st) ∧
      st.createdBmp.length = (componentsOf docTButton).length ∧
      st.createdPng.length = (componentsOf docTButton).length :=
  C3_masters_deleted_amended.2 docTButton "/tmp/out" 1024 1024
    (by decide) (by decide) (by decide)

/-- Claim C4 (amended): if the Document contains no layer whose name
starts with "Cmp ", the icon-export operation returns a calling-error
result having written zero files, attempted zero saves and created
zero master images — but os.makedirs runs before the component check,
so the output folder is created (if absent) despite the precondition
failure. -/
theorem C4_no_components_aborts_amended (host : Host) (interactive : Bool)
    (dialog : Option String) (args : List String) (doc : List Layer)
    (dW dH : Nat) (folder : String)
    (hres : resolveFolder interactive dialog args = some folder)
    (hmk : host.mkdirOk = true)
    (hcomp : componentsOf doc = []) :
    export_component_variants_no_pdb host interactive dialog args doc dW dH
        = .ok (.callingError, initStMkdir doc) ∧
    (initStMkdir doc).files = [] ∧
    (initStMkdir doc).saveAttempts = [] ∧
    (initStMkdir doc).createdBmp = [] ∧
    (initStMkdir doc).createdPng = [] ∧
    (initStMkdir doc).mkdirCalled = true := by
  refine ⟨?_, rfl, rfl, rfl, rfl, rfl⟩
  rw [export_eq_folder host interactive dialog args doc dW dH folder hres]
  exact eaf_noComps host folder doc dW dH hmk hcomp

/-- Claim C4 counterexample: on a Document whose only layer is
"Small logo" the operation does return a calling error and writes no
files, but the state records that os.makedirs was invoked (the folder
creation side effect happens before the abort), contradicting "no
other externally visible state change (including creation of the
output folder) occurs". -/
theorem C4_counterexample_folder_created_before_abort :
    export_component_variants_no_pdb allOk true (some "/out") []
        [⟨"Small logo", true⟩] 64 64
      = .ok (.callingError, initStMkdir [⟨"Small logo", true⟩]) ∧
    (initStMkdir [⟨"Small logo", true⟩]).mkdirCalled = true ∧
    (initStMkdir [⟨"Small logo", true⟩]).files = [] := by decide

theorem C4_no_components_aborts_amended_witness :
    export_component_variants_no_pdb allOk true (some "/out") []
        [⟨"Small logo", true⟩] 64 64
      = .ok (.callingError, initStMkdir [⟨"Small logo", true⟩]) ∧
    (initStMkdir [⟨"Small logo", true⟩]).files = [] ∧
    (initStMkdir [⟨"Small logo", true⟩]).saveAttempts = [] ∧
    (initStMkdir [⟨"Small logo", true⟩]).createdBmp = [] ∧
    (initStMkdir [⟨"Small logo", true⟩]).createdPng = [] ∧
    (initStMkdir [⟨"Small logo", true⟩]).mkdirCalled = true :=
  C4_no_components_aborts_amended allOk true (some "/out") []
    [⟨"Small logo", true⟩] 64 64 "/out" (by decide) rfl (by decide)

theorem sanChar_idem (c : Char) : sanChar (sanChar c) = sanChar c := by
  rcases h : isWordChar c with _ | _ <;> simp [sanChar, h]

theorem sanChar_word (c : Char) : isWordChar (sanChar c) = true := by
  rcases h : isWordChar c with _ | _
  · simp only [sanChar, h, Bool.false_eq_true, if_false]
    decide
  · simp [sanChar, h]

/-- Claim C5 (amended): the identifier sanitization is total and
idempotent, its output consists only of characters of the class
[A-Za-z0-9_] and has the same length as its input — hence it matches
[A-Za-z0-9_]+ exactly when the input is nonempty (the empty name maps
to the empty string, which the regex plus does not match) — and two
distinct names that differ only in punctuation collide. -/
theorem C5_sanitize_amended :
    (∀ s : String, sanitize (sanitize s) = sanitize s) ∧
    (∀ s : String, (sanitize s).toList.all isWordChar = true) ∧
    (∀ s : String, (sanitize s).length = s.length) ∧
    (∀ s : String, s ≠ "" → matchesWordPlus (sanitize s) = true) ∧
    sanitize "Cmp T.Button" = sanitize "Cmp T,Button" ∧
    "Cmp T.Button" ≠ "Cmp T,Button" := by
  have hall : ∀ s : String, (sanitize s).toList.all isWordChar = true := by
    intro s
    show (s.toList.map sanChar).all isWordChar = true
    rw [List.all_map, List.all_eq_true]
    intro c _
    exact sanChar_word c
  refine ⟨?_, hall, ?_, ?_, by decide, by decide⟩
  · intro s
    show String.mk ((s.toList.map sanChar).map sanChar) = String.mk (s.toList.map sanChar)
    rw [List.map_map]
    exact congrArg String.mk (List.map_congr_left (fun a _ => sanChar_idem a))
  · intro s
    show (s.toList.map sanChar).length = s.length
    rw [List.length_map]
    rfl
  · intro s hs
    have hne : s.toList ≠ [] := by
      intro h
      apply hs
      cases s with
      | mk data =>
        cases data with
        | nil => rfl
        | cons c cs => exact absurd h (by simp [String.toList])
    rcases hd : s.toList with _ | ⟨c, cs⟩
    · exact absurd hd hne
    · unfold matchesWordPlus
      rw [hall s, Bool.and_true]
      have hlist : (sanitize s).toList = (c :: cs).map sanChar := by
        show s.toList.map sanChar = (c :: cs).map sanChar
        rw [hd]
      rw [hlist]
      rfl

/-- Claim C5 counterexample: the claim as stated requires the output of
sanitization on every layer name to match [A-Za-z0-9_]+; on the empty
name the output is the empty string, which that regex does not match. -/
theorem C5_counterexample_empty_name :
    sanitize "" = "" ∧ matchesWordPlus (sanitize "") = false := by decide

theorem C5_sanitize_amended_witness :
    matchesWordPlus (sanitize "Cmp T.Button") = true ∧
    sanitize (sanitize "Cmp T.Button") = sanitize "Cmp T.Button" :=
  ⟨C5_sanitize_amended.2.2.2.1 "Cmp T.Button" (by decide),
   C5_sanitize_amended.1 "Cmp T.Button"⟩

/-- Claim C6: if the user cancels the interactive folder-selection
dialog (the dialog yields no folder), or in non-interactive mode no
output folder argument is supplied, both the icon-export operation and
the resource-descriptor generation terminate with the distinct CANCEL
status — different from the CALLING_ERROR status used for errors and
from SUCCESS — with zero files written and without the output folder
being created. -/
theorem C6_cancellation_distinct_no_files (host : Host) (dialog : Option String)
    (args : List String) (doc : List Layer) (dW dH : Nat) :
    export_component_variants_no_pdb host true none args doc dW dH
        = .ok (.cancel, initSt doc) ∧
    export_component_variants_no_pdb host false dialog [] doc dW dH
        = .ok (.cancel, initSt doc) ∧
    generate_rc_files host true none args doc = (.cancel, false, []) ∧
    generate_rc_files host false dialog [] doc = (.cancel, false, []) ∧
    (initSt doc).files = [] ∧
    (initSt doc).saveAttempts = [] ∧
    (initSt doc).mkdirCalled = false ∧
    PDBStatus.cancel ≠ PDBStatus.callingError ∧
    PDBStatus.cancel ≠ PDBStatus.success := by
  refine ⟨?_, ?_, ?_, ?_, rfl, rfl, rfl, by decide, by decide⟩
  · exact export_eq_cancel host true none args doc dW dH rfl
  · exact export_eq_cancel host false dialog [] doc dW dH rfl
  · exact rc_eq_cancel host true none args doc rfl
  · exact rc_eq_cancel host false dialog [] doc rfl

/-- Claim C8: the claim asserts that no exception propagates out of the
top-level operations for any Document; but a layer named exactly
"Cmp " (with an empty suffix) is a component layer, and the identifier
derivation of line 384 — compLayer.get_name().split(None, 1)[1] — is
outside every try block, so with every host call succeeding the export
operation raises IndexError there.  (generate_rc_files guards the same
computation at lines 574-581 with try/continue.) -/
theorem C8_cmp_space_layer_raises_indexerror :
    is_component_layer ⟨"Cmp ", true⟩ = true ∧
    export_component_variants_no_pdb allOk true (some "/out") []
        [⟨"Cmp ", true⟩] 1024 1024
      = .error (.indexError, initStMkdir [⟨"Cmp ", true⟩]) ∧
    (rcName "Cmp ").isNone = true := by decide

/-! Per-artifact resilience: with duplicate and merge succeeding, any
pattern of scale and save failures still attempts every artifact. -/

@[simp] theorem callScale_snd_saveAttempts (host : Host) (w hgt : Nat) (st : St) :
    (callScale host w hgt st).2.saveAttempts = st.saveAttempts := rfl

@[simp] theorem callMerge_snd_saveAttempts (host : Host) (st : St) :
    (callMerge host st).2.saveAttempts = st.saveAttempts := rfl

@[simp] theorem callSizeRead_snd_saveAttempts (host : Host) (st : St) :
    (callSizeRead host st).2.saveAttempts = st.saveAttempts := rfl

def exportStatusOf (r : Except (PyErr × St) (PDBStatus × St)) : Option PDBStatus :=
  match r with
  | .ok x => some x.1
  | .error _ => none

theorem recreateMaster_dm (host : Host) (fmt : ImgFormat) (dW dH : Nat)
    (hdup : ∀ n, host.dupOk n = true) (hmerge : ∀ n, host.mergeOk n = true)
    (oldM : Nat) (st : St) :
    ∃ q, recreateMaster host fmt dW dH oldM st = .ok q ∧
      q.st.saveAttempts = st.saveAttempts := by
  have h4 := hdup st.nDup
  have h5 := hmerge st.nMerge
  simp only [recreateMaster, callDup, callMerge, callSizeRead, deleteImg, h4, h5, reduceIte]
  exact ⟨_, rfl, rfl⟩

theorem stepSize_dm (host : Host) (fmt : ImgFormat) (folder ident : String)
    (dW dH s : Nat)
    (hdup : ∀ n, host.dupOk n = true) (hmerge : ∀ n, host.mergeOk n = true)
    (p : PassSt) :
    ∃ q, stepSize host fmt folder ident dW dH s p = .ok q ∧
      q.st.saveAttempts = p.st.saveAttempts ++ [pathOf fmt folder ident s] := by
  rcases h3 : (callScale host p.ow p.oh (stepPre host fmt folder ident s p).1).1 with _ | _
  · obtain ⟨q, hq, ha⟩ := recreateMaster_dm host fmt dW dH hdup hmerge p.master
      ((callScale host p.ow p.oh (stepPre host fmt folder ident s p).1).2)
    refine ⟨q, ?_, ?_⟩
    · simp only [stepSize, tryScaleDims, h3, Bool.false_eq_true, reduceIte]
      exact hq
    · rw [ha, callScale_snd_saveAttempts, stepPre_saveAttempts]
  · refine ⟨{ p with
        st := (callScale host p.ow p.oh (stepPre host fmt folder ident s p).1).2
        curW := p.ow
        curH := p.oh }, ?_, ?_⟩
    · simp only [stepSize, tryScaleDims, h3, reduceIte]
    · rw [callScale_snd_saveAttempts, stepPre_saveAttempts]

theorem runSizes_dm (host : Host) (fmt : ImgFormat) (folder ident : String)
    (dW dH : Nat)
    (hdup : ∀ n, host.dupOk n = true) (hmerge : ∀ n, host.mergeOk n = true)
    (sizes : List Nat) : ∀ p : PassSt,
    ∃ q, runSizes host fmt folder ident dW dH sizes p = .ok q ∧
      q.st.saveAttempts = p.st.saveAttempts ++ sizes.map (pathOf fmt folder ident) := by
  induction sizes with
  | nil =>
    intro p
    exact ⟨p, rfl, by simp⟩
  | cons s rest ih =>
    intro p
    obtain ⟨p2, hstep, ha2⟩ := stepSize_dm host fmt folder ident dW dH s hdup hmerge p
    obtain ⟨q, hq, ha⟩ := ih p2
    refine ⟨q, ?_, ?_⟩
    · rw [runSizes_cons_ok host fmt folder ident dW dH s rest p p2 hstep]
      exact hq
    · rw [ha, ha2]
      simp

theorem finishPass_saveAttempts_dm (host : Host) (fmt : ImgFormat) (folder ident : String)
    (dW dH : Nat)
    (hdup : ∀ n, host.dupOk n = true) (hmerge : ∀ n, host.mergeOk n = true)
    (sizes : List Nat) (p : PassSt) :
    (finishPass fmt (runSizes host fmt folder ident dW dH sizes p)).saveAttempts
      = p.st.saveAttempts ++ sizes.map (pathOf fmt folder ident) := by
  obtain ⟨q, hq, ha⟩ := runSizes_dm host fmt folder ident dW dH hdup hmerge sizes p
  rw [hq, finishPass_ok, deleteImg_saveAttempts, ha]

theorem masterPass_dm (host : Host) (fmt : ImgFormat) (folder ident : String)
    (dW dH : Nat)
    (hdup : ∀ n, host.dupOk n = true) (hmerge : ∀ n, host.mergeOk n = true)
    (st : St) :
    (masterPass host fmt folder ident dW dH st).saveAttempts
      = st.saveAttempts ++ EXPORT_SIZES.map (pathOf fmt folder ident) := by
  have h4 := hdup st.nDup
  have h5 := hmerge st.nMerge
  simp only [masterPass, callDup, callMerge, callSizeRead, h4, h5, reduceIte]
  rw [finishPass_saveAttempts_dm host fmt folder ident dW dH hdup hmerge EXPORT_SIZES _]

theorem exportComp_dm (host : Host) (folder : String) (dW dH : Nat)
    (hdup : ∀ n, host.dupOk n = true) (hmerge : ∀ n, host.mergeOk n = true)
    (allComps : List (Nat × String)) (c : Nat × String) (st : St)
    (hident : identOk c.2 = true) :
    ∃ st3, exportComp host folder dW dH allComps c st = .ok st3 ∧
      st3.saveAttempts = st.saveAttempts ++ expectedCompFiles folder c.2 := by
  have hid := identOk_spec c.2 hident
  unfold exportComp
  rw [hid]
  refine ⟨_, rfl, ?_⟩
  rw [masterPass_dm host .png folder (identOfName c.2) dW dH hdup hmerge _,
    masterPass_dm host .bmp folder (identOfName c.2) dW dH hdup hmerge _]
  simp [expectedCompFiles]

theorem exportLoop_dm (host : Host) (folder : String) (dW dH : Nat)
    (hdup : ∀ n, host.dupOk n = true) (hmerge : ∀ n, host.mergeOk n = true)
    (allComps : List (Nat × String)) (comps : List (Nat × String)) :
    ∀ st : St, (∀ c ∈ comps, identOk c.2 = true) →
    ∃ st2, exportLoop host folder dW dH allComps comps st = .ok st2 ∧
      st2.saveAttempts = st.saveAttempts
        ++ comps.flatMap (fun c => expectedCompFiles folder c.2) := by
  induction comps with
  | nil =>
    intro st _
    exact ⟨st, rfl, by simp⟩
  | cons c rest ih =>
    intro st hval
    obtain ⟨st3, hc, ha3⟩ := exportComp_dm host folder dW dH hdup hmerge allComps c st
      (hval c (by simp))
    obtain ⟨st2, hrest, ha2⟩ := ih st3 (fun x hx => hval x (by simp [hx]))
    refine ⟨st2, ?_, ?_⟩
    · rw [exportLoop_cons_ok host folder dW dH allComps c rest st st3 hc]
      exact hrest
    · rw [ha2, ha3]
      simp

/-- Host on which the first scale call and the fourth save call fail
and everything else succeeds. -/
def hostOneFail : Host :=
  { allOk with scaleOk := fun n => decide (n ≠ 0), saveOk := fun n => decide (n ≠ 3) }

/-- Claim C7: within the icon-export operation a failure of a per-size
step — a scale call raising or a save call reporting failure — is
logged and does not prevent the remaining sizes of the same component
nor the remaining components from being attempted.  Proved in the
strong form: for every pattern of scale and save failures (duplicate
and merge succeeding, so that the recovery path can rebuild a master),
the operation still returns SUCCESS and the save-attempt trace is the
complete per-artifact list; and concretely, with the first scale call
and the fourth save call failing, all 18 artifacts of one component
are still attempted, the failed save is missing only from the
successful-files trace, and the failures are logged. -/
theorem C7_per_artifact_failures_resilient :
    (∀ (host : Host) (doc : List Layer) (folder : String) (dW dH : Nat),
      (∀ n, host.dupOk n = true) → (∀ n, host.mergeOk n = true) →
      host.mkdirOk = true → pyStrip folder ≠ "" → componentsOf doc ≠ [] →
      (∀ c ∈ componentsOf doc, identOk c.2 = true) →
      ∃ st, export_component_variants_no_pdb host false none [folder] doc dW dH
          = .ok (.success, st) ∧
        st.saveAttempts = expectedFiles folder doc) ∧
    (exportStatusOf (export_component_variants_no_pdb hostOneFail false none ["/o"]
        [⟨"Cmp A", true⟩] 64 64) = some .success ∧
      (exportStateOf (export_component_variants_no_pdb hostOneFail false none ["/o"]
        [⟨"Cmp A", true⟩] 64 64)).saveAttempts = expectedFiles "/o" [⟨"Cmp A", true⟩] ∧
      (exportStateOf (export_component_variants_no_pdb hostOneFail false none ["/o"]
        [⟨"Cmp A", true⟩] 64 64)).files.length = 17 ∧
      (exportStateOf (export_component_variants_no_pdb hostOneFail false none ["/o"]
        [⟨"Cmp A", true⟩] 64 64)).log ≠ []) := by
  constructor
  · intro host doc folder dW dH hdup hmerge hmk hfold hne hval
    have hres : resolveFolder false none [folder] = some folder :=
      resolveFolder_some false none [folder] folder rfl hfold
    cases hcomp : componentsOf doc with
    | nil => exact absurd hcomp hne
    | cons c rest =>
      obtain ⟨st2, hloop, ha⟩ := exportLoop_dm host folder dW dH hdup hmerge
        (c :: rest) (c :: rest) (initStMkdir doc) (by rw [← hcomp]; exact hval)
      refine ⟨st2, ?_, ?_⟩
      · rw [export_eq_folder host false none [folder] doc dW dH folder hres]
        exact eaf_run_ok host folder doc dW dH c rest st2 hmk hcomp hloop
      · rw [ha]
        simp [expectedFiles, hcomp]
  · exact ⟨by decide, by decide, by decide, by decide⟩

theorem C7_per_artifact_failures_resilient_witness :
    ∃ st, export_component_variants_no_pdb hostOneFail false none ["/o"]
        [⟨"Cmp A", true⟩] 64 64 = .ok (.success, st) ∧
      st.saveAttempts = expectedFiles "/o" [⟨"Cmp A", true⟩] :=
  C7_per_artifact_failures_resilient.1 hostOneFail [⟨"Cmp A", true⟩] "/o" 64 64
    (fun n => rfl) (fun n => rfl) rfl (by decide) (by decide) (by decide)

/-- Claim C9: a layer is a component layer iff its name carries the
exact, case-sensitive prefix "Cmp ": "cmp X" and "CMP X" are rejected
by is_component_layer, are exported to no files, and get no resource
descriptors (both operations return the no-components calling error on
a Document holding only such layers), even though the identifier
derivation itself (line 384, and rcName at line 576) tests the prefix
case-insensitively and does accept "cmp X" and "CMP X"; in a mixed
Document only the exact-prefix layer produces files. -/
theorem C9_component_prefix_exact_case :
    is_component_layer ⟨"Cmp X", true⟩ = true ∧
    is_component_layer ⟨"cmp X", true⟩ = false ∧
    is_component_layer ⟨"CMP X", true⟩ = false ∧
    compIdent "cmp X" = .ok "X" ∧
    rcName "CMP X" = some "X" ∧
    exportStatusOf (export_component_variants_no_pdb allOk false none ["/o"]
      [⟨"cmp X", true⟩, ⟨"CMP Y", true⟩] 64 64) = some .callingError ∧
    (exportStateOf (export_component_variants_no_pdb allOk false none ["/o"]
      [⟨"cmp X", true⟩, ⟨"CMP Y", true⟩] 64 64)).files = [] ∧
    generate_rc_files allOk false none ["/o"] [⟨"cmp X", true⟩, ⟨"CMP Y", true⟩]
      = (.callingError, true, []) ∧
    (exportStateOf (export_component_variants_no_pdb allOk false none ["/o"]
      [⟨"cmp X", true⟩, ⟨"Cmp Z", true⟩] 64 64)).files
      = expectedFiles "/o" [⟨"Cmp Z", true⟩] := by decide

/-- Host whose width/height accessors are never readable, forcing the
get_image_size_safe fallback. -/
def hostNoSizeRead : Host :=
  { allOk with sizeReadable := fun _ => false }

/-- Claim C10: when the master's width and height cannot be read,
get_image_size_safe returns the fixed fallback (1024, 1024) whatever
the true dimensions are; consequently, on a 2048x2048 Document with
unreadable sizes, every restore step of both passes rescales the
master to 1024x1024 instead of 2048x2048: the scale-call trace is, per
pass, (s, s) followed by (1024, 1024) for each export size. -/
theorem C10_unreadable_size_restores_to_fallback :
    (∀ w hgt : Nat, get_image_size_safe false w hgt = (1024, 1024)) ∧
    ((2048, 2048) ≠ ((1024, 1024) : Nat × Nat)) ∧
    (exportStateOf (export_component_variants_no_pdb hostNoSizeRead false none ["/o"]
        [⟨"Cmp A", true⟩] 2048 2048)).scaleTargets
      = EXPORT_SIZES.flatMap (fun s => [(s, s), (1024, 1024)])
        ++ EXPORT_SIZES.flatMap (fun s => [(s, s), (1024, 1024)]) := by
  refine ⟨fun w hgt => rfl, by decide, by decide⟩

theorem C6_cancellation_distinct_no_files_witness :
    export_component_variants_no_pdb allOk true none [] docTButton 1024 1024
        = .ok (.cancel, initSt docTButton) ∧
    export_component_variants_no_pdb allOk false none [] docTButton 1024 1024
        = .ok (.cancel, initSt docTButton) ∧
    generate_rc_files allOk true none [] docTButton = (.cancel, false, []) ∧
    generate_rc_files allOk false none [] docTButton = (.cancel, false, []) ∧
    (initSt docTButton).files = [] ∧
    (initSt docTButton).saveAttempts = [] ∧
    (initSt docTButton).mkdirCalled = false ∧
    PDBStatus.cancel ≠ PDBStatus.callingError ∧
    PDBStatus.cancel ≠ PDBStatus.success :=
  C6_cancellation_distinct_no_files allOk none [] docTButton 1024 1024

theorem C10_unreadable_size_restores_to_fallback_witness :
    get_image_size_safe false 2048 2048 = (1024, 1024) :=
  C10_unreadable_size_restores_to_fallback.1 2048 2048
